import Mathlib

/-!
Shallow embedding of the TaxiSimulation repository (Python sources:
`location.py`, `rider.py`, `driver.py`, `dispatcher.py`, `monitor.py`,
`event.py`, `simulation.py`).

Modelling conventions:
* Python `int` is `Int` (timestamps, coordinates); driver speed is `Nat`
  (the constructor applies `int(speed)` and the program only makes sense
  for non-negative speeds; a zero speed raises `ZeroDivisionError`, which
  the embedding surfaces through `Except`).
* A Python attribute that can hold `None` is an `Option`: in particular
  `Driver.location` is `Option Location`, because
  `Driver.end_drive`/`end_ride` assign `self.location = self._destination`
  without checking that the destination is set, so `location` can become
  `None` at runtime.
* Python exceptions (`ZeroDivisionError` on division by zero,
  `AttributeError` on attribute access of `None`) are modelled with
  `Except String`; a function that cannot raise is a plain function.
* Python `/` (true division of ints, producing a float) is modelled with
  exact rational arithmetic (`Rat`); `int(x / y)` for non-negative ints is
  `Nat` division (floor).
* Mutable heap objects shared by reference (riders, drivers) live in
  id-keyed stores inside a `World`; the dispatcher and events refer to
  them by id. This is faithful for runs in which distinct objects have
  distinct ids (Python's `__eq__` on `Driver`/`Rider` compares the id
  among other fields, so an object is always found as itself).
-/

/-! ## location.py -/

structure Location where
  row : Int
  column : Int
deriving DecidableEq, Repr

/-- `manhattan_distance` from `location.py`:
`abs(destination.row - origin.row) + abs(destination.column - origin.column)`. -/
def manhattan_distance (origin destination : Location) : Nat :=
  (destination.row - origin.row).natAbs + (destination.column - origin.column).natAbs

/-! ## rider.py -/

def WAITING : String := "waiting"
def CANCELLED : String := "cancelled"
def SATISFIED : String := "satisfied"

structure Rider where
  id : String
  origin : Location
  destination : Location
  patience : Int
  status : String
deriving DecidableEq, Repr

/-- `Rider.__init__`: a fresh rider has status `WAITING`. -/
def mkRider (id : String) (origin destination : Location) (patience : Int) : Rider :=
  ⟨id, origin, destination, patience, WAITING⟩

/-! ## driver.py -/

structure Driver where
  id : String
  location : Option Location
  speed : Nat
  is_idle : Bool
  _destination : Option Location
deriving DecidableEq, Repr

/-- `Driver.__init__`: fresh driver is idle with no destination. -/
def mkDriver (id : String) (location : Location) (speed : Nat) : Driver :=
  ⟨id, some location, speed, true, none⟩

/-- `Driver.get_travel_time`:
`int(manhattan_distance(self.location, destination) / self._speed)`.
Accessing attributes of a `None` location raises `AttributeError`;
a zero speed raises `ZeroDivisionError`. -/
def Driver.get_travel_time (d : Driver) (destination : Location) : Except String Nat :=
  match d.location with
  | none => .error "AttributeError"
  | some l =>
      if d.speed = 0 then .error "ZeroDivisionError"
      else .ok (manhattan_distance l destination / d.speed)

/-- `Driver.start_drive`: sets `self._destination = location`, then returns
`self.get_travel_time(location)` (it does NOT touch `is_idle`). -/
def Driver.start_drive (d : Driver) (location : Location) : Driver × Except String Nat :=
  let d' : Driver := { d with _destination := some location }
  (d', d'.get_travel_time location)

/-- `Driver.end_drive`: `self.location = self._destination;
self._destination = None; self.is_idle = True`. No precondition check. -/
def Driver.end_drive (d : Driver) : Driver :=
  { d with location := d._destination, _destination := none, is_idle := true }

/-- `Driver.start_ride`: `self.is_idle = False;
self._destination = rider.destination; return self.get_travel_time(...)`. -/
def Driver.start_ride (d : Driver) (rider : Rider) : Driver × Except String Nat :=
  let d' : Driver := { d with is_idle := false, _destination := some rider.destination }
  (d', d'.get_travel_time rider.destination)

/-- `Driver.end_ride`: `self.location = self._destination;
self.is_idle = True; self._destination = None`. No precondition check. -/
def Driver.end_ride (d : Driver) : Driver :=
  { d with location := d._destination, is_idle := true, _destination := none }

/-! ## monitor.py -/

def RIDER : String := "rider"
def DRIVER : String := "driver"
def REQUEST : String := "request"
def CANCEL : String := "cancel"
def PICKUP : String := "pickup"
def DROPOFF : String := "dropoff"

structure Activity where
  description : String
  time : Int
  id : String
  location : Option Location
deriving DecidableEq, Repr

/-- The monitor's `_activities` dictionary, split into its two fixed
top-level keys (`RIDER` and `DRIVER`).  Each side is an insertion-ordered
association list from identifier to activity list, mirroring a Python
dict. -/
structure Monitor where
  rider_logs : List (String × List Activity)
  driver_logs : List (String × List Activity)
deriving DecidableEq, Repr

/-- Appending to `self._activities[category][identifier]`, creating the
entry lazily (a fresh dict key goes to the end, as in Python). -/
def logAppend : List (String × List Activity) → String → Activity →
    List (String × List Activity)
  | [], k, a => [(k, [a])]
  | (k', acts) :: rest, k, a =>
      if k' = k then (k', acts ++ [a]) :: rest
      else (k', acts) :: logAppend rest k a

/-- `Monitor.notify`. -/
def Monitor.notify (m : Monitor) (timestamp : Int) (category description identifier : String)
    (location : Option Location) : Monitor :=
  let a : Activity := ⟨description, timestamp, identifier, location⟩
  if category = RIDER then
    { m with rider_logs := logAppend m.rider_logs identifier a }
  else
    { m with driver_logs := logAppend m.driver_logs identifier a }

/-- The accumulation loop of `Monitor._average_wait_time`: for each rider
with at least two logged activities add
`activities[1].time - activities[0].time` and count it. -/
def waitStats (logs : List (String × List Activity)) : Int × Nat :=
  logs.foldl
    (fun (p : Int × Nat) e =>
      match e.2 with
      | a0 :: a1 :: _ => (p.1 + (a1.time - a0.time), p.2 + 1)
      | _ => p)
    (0, 0)

/-- `Monitor._average_wait_time`: `wait_time / count` (true division;
`ZeroDivisionError` when the count is zero). -/
def Monitor.average_wait_time (m : Monitor) : Except String Rat :=
  let p := waitStats m.rider_logs
  if p.2 = 0 then .error "ZeroDivisionError"
  else .ok ((p.1 : Rat) / (p.2 : Rat))

/-- `manhattan_distance` applied to two activity locations; a `None`
location raises `AttributeError` in the source. -/
def mdistE : Option Location → Option Location → Except String Nat
  | some a, some b => .ok (manhattan_distance a b)
  | _, _ => .error "AttributeError"

/-- The inner loop of `Monitor._average_total_distance`: for every window
`activities[i], activities[i+1], activities[i+2]`, if entry `i` is a
`REQUEST` add the drive distance and, if entry `i+2` is a `DROPOFF`, also
the ride distance. -/
def driverTripleSum : List Activity → Except String Nat
  | a :: b :: c :: rest =>
      if a.description = REQUEST then do
        let d1 ← mdistE a.location b.location
        let d2 ← if c.description = DROPOFF then mdistE b.location c.location else pure 0
        let s ← driverTripleSum (b :: c :: rest)
        pure (d1 + d2 + s)
      else driverTripleSum (b :: c :: rest)
  | _ => pure 0

/-- The accumulation loop of `Monitor._average_total_distance` over all
driver logs. -/
def totalSum (logs : List (String × List Activity)) : Except String Nat :=
  logs.foldlM (fun acc e => do
      let v ← driverTripleSum e.2
      pure (acc + v)) 0

/-- `Monitor._average_total_distance`: sum over all driver logs, then
`float(distance / len(self._activities[DRIVER]))`. -/
def Monitor.average_total_distance (m : Monitor) : Except String Rat := do
  let s ← totalSum m.driver_logs
  if m.driver_logs.length = 0 then .error "ZeroDivisionError"
  else pure ((s : Rat) / (m.driver_logs.length : Rat))

/-- The inner loop of `Monitor._average_ride_distance`: for every window
`activities[i], activities[i+1]`, if they are a `PICKUP` followed by a
`DROPOFF`, add the distance between them. -/
def ridePairSum : List Activity → Except String Nat
  | a :: b :: rest =>
      if a.description = PICKUP ∧ b.description = DROPOFF then do
        let d ← mdistE a.location b.location
        let s ← ridePairSum (b :: rest)
        pure (d + s)
      else ridePairSum (b :: rest)
  | _ => pure 0

/-- The accumulation loop of `Monitor._average_ride_distance` over all
driver logs. -/
def rideSum (logs : List (String × List Activity)) : Except String Nat :=
  logs.foldlM (fun acc e => do
      let v ← ridePairSum e.2
      pure (acc + v)) 0

/-- `Monitor._average_ride_distance`. -/
def Monitor.average_ride_distance (m : Monitor) : Except String Rat := do
  let s ← rideSum m.driver_logs
  if m.driver_logs.length = 0 then .error "ZeroDivisionError"
  else pure ((s : Rat) / (m.driver_logs.length : Rat))

structure Report where
  rider_wait_time : Rat
  driver_total_distance : Rat
  driver_ride_distance : Rat
deriving DecidableEq, Repr

/-- `Monitor.report`: the dict literal evaluates `_average_wait_time()`,
then `_average_total_distance()`, then `_average_ride_distance()`. -/
def Monitor.report (m : Monitor) : Except String Report := do
  let w ← m.average_wait_time
  let t ← m.average_total_distance
  let r ← m.average_ride_distance
  pure ⟨w, t, r⟩

/-! ## dispatcher.py and the shared mutable state

Rider and driver objects are shared by reference between the dispatcher,
the events and the monitor; the `World` structure holds the single store
of their current states, keyed by id, while the dispatcher keeps lists of
ids (registration order for `_drivers`, FIFO order for the waitlist
`_riders`).  Python membership tests on these lists use
`Driver.__eq__`/`Rider.__eq__`, which always find an object as itself and,
for distinct ids, never identify two objects; so with unique ids they are
id-membership tests. -/

structure Dispatcher where
  _drivers : List String
  _riders : List String
deriving DecidableEq, Repr

structure World where
  riders : List Rider
  drivers : List Driver
  dispatcher : Dispatcher
  monitor : Monitor
deriving DecidableEq, Repr

def findRider (rs : List Rider) (rid : String) : Option Rider :=
  rs.find? (fun r => r.id = rid)

def findDriver (ds : List Driver) (did : String) : Option Driver :=
  ds.find? (fun d => d.id = did)

/-- Writing back the new state of a shared rider object. -/
def updateRider (rs : List Rider) (r : Rider) : List Rider :=
  rs.map (fun x => if x.id = r.id then r else x)

/-- Writing back the new state of a shared driver object. -/
def updateDriver (ds : List Driver) (d : Driver) : List Driver :=
  ds.map (fun x => if x.id = d.id then d else x)

/-- The current states of the drivers registered with the dispatcher, in
registration order. -/
def registeredDrivers (w : World) : List Driver :=
  w.dispatcher._drivers.filterMap (fun did => findDriver w.drivers did)

/-- The scan inside `Dispatcher.request_driver`:
`min_time = -1; for d in self._drivers: if d.is_idle: ...` with the
running minimum `mt` and current pick `cur`.  The travel-time call can
raise (`Except`), exactly where the source calls `d.get_travel_time`. -/
def rdLoop (origin : Location) : List Driver → Int → Option String →
    Except String (Int × Option String)
  | [], mt, cur => .ok (mt, cur)
  | d :: rest, mt, cur =>
      if d.is_idle = true then
        if mt = -1 then do
          let t ← d.get_travel_time origin
          rdLoop origin rest (t : Int) (some d.id)
        else do
          let t ← d.get_travel_time origin
          if mt > (t : Int) then rdLoop origin rest (t : Int) (some d.id)
          else rdLoop origin rest mt cur
      else rdLoop origin rest mt cur

/-- `Dispatcher.request_driver`: if no driver has ever registered, append
the rider to the waitlist and return `None`; otherwise scan the
registered drivers for the nearest idle one (the scan mutates nothing). -/
def request_driver (w : World) (rider : Rider) : Except String (World × Option String) :=
  if w.dispatcher._drivers.length = 0 then
    .ok ({ w with dispatcher :=
            { w.dispatcher with _riders := w.dispatcher._riders ++ [rider.id] } }, none)
  else do
    let p ← rdLoop rider.origin (registeredDrivers w) (-1) none
    .ok (w, p.2)

/-- `Dispatcher.request_rider`: register the driver if it is not already
registered, then pop the head of the waitlist if it is non-empty. -/
def request_rider (w : World) (driver : Driver) : World × Option String :=
  let disp := w.dispatcher
  let disp1 :=
    if driver.id ∈ disp._drivers then disp
    else { disp with _drivers := disp._drivers ++ [driver.id] }
  match disp1._riders with
  | [] => ({ w with dispatcher := disp1 }, none)
  | rid :: rest => ({ w with dispatcher := { disp1 with _riders := rest } }, some rid)

/-- `Dispatcher.cancel_ride`: `if rider in self._riders:
self._riders.remove(rider)` (remove the first occurrence). -/
def cancel_ride (w : World) (rid : String) : World :=
  if rid ∈ w.dispatcher._riders then
    { w with dispatcher := { w.dispatcher with _riders := w.dispatcher._riders.erase rid } }
  else w

/-! ## event.py -/

inductive Ev where
  | riderRequest (timestamp : Int) (rider : String)
  | driverRequest (timestamp : Int) (driver : String)
  | cancellation (timestamp : Int) (rider : String)
  | pickup (timestamp : Int) (rider driver : String)
  | dropoff (timestamp : Int) (rider driver : String)
deriving DecidableEq, Repr

def Ev.timestamp : Ev → Int
  | .riderRequest t _ => t
  | .driverRequest t _ => t
  | .cancellation t _ => t
  | .pickup t _ _ => t
  | .dropoff t _ _ => t

/-- `RiderRequest.do`: notify, ask the dispatcher for a driver; if one is
returned it starts driving to the rider's origin and a `Pickup` is
scheduled; a `Cancellation` at `timestamp + patience` is always
scheduled (appended after the `Pickup`). -/
def RiderRequest_do (t : Int) (rid : String) (w : World) :
    Except String (World × List Ev) := do
  match findRider w.riders rid with
  | none => .error "missing rider object"
  | some r =>
    let w := { w with monitor := w.monitor.notify t RIDER REQUEST r.id (some r.origin) }
    let (w, drv) ← request_driver w r
    match drv with
    | some did =>
        match findDriver w.drivers did with
        | none => .error "missing driver object"
        | some d =>
            let (d', tE) := d.start_drive r.origin
            let w := { w with drivers := updateDriver w.drivers d' }
            let travel_time ← tE
            .ok (w, [Ev.pickup (t + travel_time) rid did,
                     Ev.cancellation (t + r.patience) rid])
    | none =>
        .ok (w, [Ev.cancellation (t + r.patience) rid])

/-- `DriverRequest.do`: notify, register with the dispatcher and ask for a
rider; if one is matched the driver starts driving to the rider's origin
and a `Pickup` is scheduled. -/
def DriverRequest_do (t : Int) (did : String) (w : World) :
    Except String (World × List Ev) := do
  match findDriver w.drivers did with
  | none => .error "missing driver object"
  | some d =>
    let w := { w with monitor := w.monitor.notify t DRIVER REQUEST d.id d.location }
    let (w, rdOpt) := request_rider w d
    match rdOpt with
    | some rid =>
        match findRider w.riders rid with
        | none => .error "missing rider object"
        | some r =>
            let (d', tE) := d.start_drive r.origin
            let w := { w with drivers := updateDriver w.drivers d' }
            let travel_time ← tE
            .ok (w, [Ev.pickup (t + travel_time) rid did])
    | none => .ok (w, [])

/-- `Cancellation.do`: if the rider is not `SATISFIED`, notify a rider
cancel, set the status to `CANCELLED` and remove the rider from the
waitlist; always return no follow-up events. -/
def Cancellation_do (t : Int) (rid : String) (w : World) :
    Except String (World × List Ev) := do
  match findRider w.riders rid with
  | none => .error "missing rider object"
  | some r =>
    if ¬ r.status = SATISFIED then
      let w := { w with monitor := w.monitor.notify t RIDER CANCEL r.id (some r.origin) }
      let w := { w with riders := updateRider w.riders { r with status := CANCELLED } }
      let w := cancel_ride w rid
      .ok (w, [])
    else
      .ok (w, [])

/-- `Pickup.do`: unconditionally end the driver's drive and notify a
driver pickup at the (new) driver location; if the rider is still
`WAITING`, notify a rider pickup, start the ride, schedule the `Dropoff`
and mark the rider `SATISFIED`; otherwise schedule a fresh
`DriverRequest` at the same timestamp. -/
def Pickup_do (t : Int) (rid did : String) (w : World) :
    Except String (World × List Ev) := do
  match findRider w.riders rid with
  | none => .error "missing rider object"
  | some r =>
  match findDriver w.drivers did with
  | none => .error "missing driver object"
  | some d =>
    let d1 := d.end_drive
    let w := { w with drivers := updateDriver w.drivers d1 }
    let w := { w with monitor := w.monitor.notify t DRIVER PICKUP d1.id d1.location }
    if r.status = WAITING then
      let w := { w with monitor := w.monitor.notify t RIDER PICKUP r.id (some r.origin) }
      let (d2, tE) := d1.start_ride r
      let w := { w with drivers := updateDriver w.drivers d2 }
      let time ← tE
      let w := { w with riders := updateRider w.riders { r with status := SATISFIED } }
      .ok (w, [Ev.dropoff (t + time) rid did])
    else
      .ok (w, [Ev.driverRequest t did])

/-- `Dropoff.do`: notify rider and driver dropoffs at the rider's
destination, end the ride and schedule a `DriverRequest` at the same
timestamp. -/
def Dropoff_do (t : Int) (rid did : String) (w : World) :
    Except String (World × List Ev) := do
  match findRider w.riders rid with
  | none => .error "missing rider object"
  | some r =>
  match findDriver w.drivers did with
  | none => .error "missing driver object"
  | some d =>
    let w := { w with monitor := w.monitor.notify t RIDER DROPOFF r.id (some r.destination) }
    let w := { w with monitor := w.monitor.notify t DRIVER DROPOFF d.id (some r.destination) }
    let d' := d.end_ride
    let w := { w with drivers := updateDriver w.drivers d' }
    .ok (w, [Ev.driverRequest t did])

/-- `Event.do` dispatch over the five concrete event classes. -/
def Ev_do : Ev → World → Except String (World × List Ev)
  | .riderRequest t rid, w => RiderRequest_do t rid w
  | .driverRequest t did, w => DriverRequest_do t did w
  | .cancellation t rid, w => Cancellation_do t rid w
  | .pickup t rid did, w => Pickup_do t rid did w
  | .dropoff t rid did, w => Dropoff_do t rid did w

/-! ## simulation.py -/

/-- Modelled from the spec: `container.PriorityQueue`, imported by
`simulation.py`, is not among the repository's source files.  Per the
spec (sections 2, 5 and 9) the queue always yields an event with the
globally smallest timestamp; the relative order of events with equal
timestamps is left open by the source's timestamp-only comparison, and we
fix FIFO (insertion) order on ties: a new event is inserted after all
queued events whose timestamp is less than or equal to its own. -/
def pqAdd : List Ev → Ev → List Ev
  | [], e => [e]
  | x :: rest, e =>
      if e.timestamp < x.timestamp then e :: x :: rest
      else x :: pqAdd rest e

/-- The `while not self._events.is_empty()` loop of `Simulation.run`,
with explicit fuel (the source loop's termination is not structural). -/
def runLoop : Nat → List Ev → World → Except String World
  | _, [], w => .ok w
  | 0, _ :: _, _ => .error "fuel exhausted"
  | fuel + 1, e :: q, w => do
      let (w', new) ← Ev_do e w
      runLoop fuel (new.foldl pqAdd q) w'

/-- `Simulation.run`: add all initial events to the queue, drain it, and
return `self._monitor.report()`. -/
def Simulation_run (fuel : Nat) (initial_events : List Ev) (w : World) :
    Except String Report := do
  let q := initial_events.foldl pqAdd []
  let w' ← runLoop fuel q w
  w'.monitor.report

/-! ## The driver state machine (for the reachability claims) -/

/-- One call of a public driver operation, with its argument. -/
inductive DriverOp where
  | startDrive (location : Location)
  | startRide (rider : Rider)
  | endDrive
  | endRide
deriving DecidableEq, Repr

def applyOp (d : Driver) : DriverOp → Driver
  | .startDrive loc => (d.start_drive loc).1
  | .startRide r => (d.start_ride r).1
  | .endDrive => d.end_drive
  | .endRide => d.end_ride

/-- The driver state after a sequence of operations applied to a freshly
constructed driver. -/
def runOps (d : Driver) (ops : List DriverOp) : Driver :=
  ops.foldl applyOp d

/-- The log of one actor inside a monitor category. -/
def getLog (logs : List (String × List Activity)) (k : String) : List Activity :=
  ((logs.find? (fun e => e.1 = k)).map (fun e => e.2)).getD []

/-! # Theorems -/

/-! ## Helper lemmas -/

theorem logAppend_getLog (logs : List (String × List Activity)) (k : String) (a : Activity) :
    getLog (logAppend logs k a) k = getLog logs k ++ [a] := by
  induction logs with
  | nil => simp [logAppend, getLog]
  | cons e rest ih =>
      obtain ⟨k', acts⟩ := e
      by_cases h : k' = k
      · subst h
        simp [logAppend, getLog]
      · simp [logAppend, getLog, h, List.find?] at ih ⊢
        exact ih

theorem findRider_id {rs : List Rider} {rid : String} {r : Rider}
    (h : findRider rs rid = some r) : r.id = rid := by
  have := List.find?_some h
  exact of_decide_eq_true this

/-! ## C1: the end-to-end scenario -/

def r1 : Rider := mkRider "r1" ⟨0, 0⟩ ⟨3, 4⟩ 4
def d1 : Driver := mkDriver "d1" ⟨0, 4⟩ 10
def w0 : World := ⟨[r1], [d1], ⟨[], []⟩, ⟨[], []⟩⟩

/-- The monitor state at the end of the C1 scenario. -/
def mF : Monitor :=
  { rider_logs := [("r1",
      [⟨"request", 2, "r1", some ⟨0, 0⟩⟩,
       ⟨"pickup", 3, "r1", some ⟨0, 0⟩⟩,
       ⟨"dropoff", 3, "r1", some ⟨3, 4⟩⟩])],
    driver_logs := [("d1",
      [⟨"request", 3, "d1", some ⟨0, 4⟩⟩,
       ⟨"pickup", 3, "d1", some ⟨0, 0⟩⟩,
       ⟨"dropoff", 3, "d1", some ⟨3, 4⟩⟩,
       ⟨"request", 3, "d1", some ⟨3, 4⟩⟩])] }

/-- The world state at the end of the C1 scenario. -/
def wF : World :=
  { riders := [{ r1 with status := "satisfied" }],
    drivers := [{ d1 with location := some ⟨3, 4⟩ }],
    dispatcher := { _drivers := ["d1"], _riders := [] },
    monitor := mF }

theorem runLoop_C1 :
    runLoop 32 ([Ev.riderRequest 2 "r1", Ev.driverRequest 3 "d1"].foldl pqAdd []) w0 =
      .ok wF := rfl

theorem report_mF :
    mF.report = .ok { rider_wait_time := 1, driver_total_distance := 11,
                      driver_ride_distance := 7 } := by
  have h1 : mF.average_wait_time = .ok 1 := by
    have hs : waitStats mF.rider_logs = (1, 1) := rfl
    unfold Monitor.average_wait_time
    rw [hs]
    norm_num
  have h2 : mF.average_total_distance = .ok 11 := by
    have hs : totalSum mF.driver_logs = .ok 11 := rfl
    unfold Monitor.average_total_distance
    rw [hs]
    norm_num [Except.bind, mF]
  have h3 : mF.average_ride_distance = .ok 7 := by
    have hs : rideSum mF.driver_logs = .ok 7 := rfl
    unfold Monitor.average_ride_distance
    rw [hs]
    norm_num [Except.bind, mF]
  unfold Monitor.report
  rw [h1, h2, h3]
  rfl

/-- C1: running `Simulation.run` on exactly the two initial events
`RiderRequest(2, r1, origin=(0,0), dest=(3,4), patience=4)` and
`DriverRequest(3, d1, loc=(0,4), speed=10)` returns the report
`{rider_wait_time: 1.0, driver_ride_distance: 7.0, driver_total_distance: 11.0}`. -/
theorem C1_end_to_end_report :
    Simulation_run 32 [Ev.riderRequest 2 "r1", Ev.driverRequest 3 "d1"] w0 =
      .ok { rider_wait_time := 1, driver_total_distance := 11, driver_ride_distance := 7 } := by
  show (do
      let w' ← runLoop 32 ([Ev.riderRequest 2 "r1", Ev.driverRequest 3 "d1"].foldl pqAdd []) w0
      w'.monitor.report) =
    Except.ok { rider_wait_time := 1, driver_total_distance := 11, driver_ride_distance := 7 }
  rw [runLoop_C1]
  show mF.report = _
  exact report_mF

/-! ## C2: the `is_idle` / destination invariant -/

/-- C2 counterexample: the biconditional "`is_idle` iff no destination"
fails on a reachable state: a fresh driver that has started a drive has a
pending destination while `is_idle` is still `true`
(`Driver.start_drive` never clears `is_idle`). -/
theorem C2_counterexample :
    runOps (mkDriver "d1" ⟨0, 4⟩ 10) [DriverOp.startDrive ⟨3, 4⟩] =
      { mkDriver "d1" ⟨0, 4⟩ 10 with _destination := some ⟨3, 4⟩ } ∧
    (runOps (mkDriver "d1" ⟨0, 4⟩ 10) [DriverOp.startDrive ⟨3, 4⟩]).is_idle = true ∧
    ¬ (runOps (mkDriver "d1" ⟨0, 4⟩ 10) [DriverOp.startDrive ⟨3, 4⟩])._destination = none := by
  refine ⟨rfl, rfl, ?_⟩
  intro h
  cases h

/-- C2 amended: on every state reachable from a fresh driver by
`start_drive` / `start_ride` / `end_drive` / `end_ride`, a missing
destination implies `is_idle = true` (equivalently, a busy driver always
has a destination), and every single operation re-establishes this
implication; the converse implication is false (see the counterexample):
`start_drive` sets a destination without clearing `is_idle`. -/
theorem C2_dest_none_implies_idle (id : String) (loc : Location) (speed : Nat)
    (ops : List DriverOp) :
    ((runOps (mkDriver id loc speed) ops)._destination = none →
      (runOps (mkDriver id loc speed) ops).is_idle = true) ∧
    (∀ (d : Driver) (op : DriverOp),
      (applyOp d op)._destination = none → (applyOp d op).is_idle = true) := by
  have hstep : ∀ (d : Driver) (op : DriverOp),
      (applyOp d op)._destination = none → (applyOp d op).is_idle = true := by
    intro d op
    cases op <;>
      simp [applyOp, Driver.start_drive, Driver.start_ride, Driver.end_drive, Driver.end_ride]
  refine ⟨?_, hstep⟩
  have h : ∀ (ops : List DriverOp) (d : Driver),
      (d._destination = none → d.is_idle = true) →
      ((runOps d ops)._destination = none → (runOps d ops).is_idle = true) := by
    intro ops
    induction ops with
    | nil => intro d h; exact h
    | cons op rest ih =>
        intro d h
        exact ih (applyOp d op) (hstep d op)
  exact h ops _ (fun _ => rfl)

theorem C2_witness :
    (runOps (mkDriver "d" ⟨0, 0⟩ 5) [DriverOp.endDrive]).is_idle = true :=
  (C2_dest_none_implies_idle "d" ⟨0, 0⟩ 5 [DriverOp.endDrive]).1 rfl

/-! ## C5: ending a drive/ride with no destination -/

/-- C5 counterexample: `end_drive` (and `end_ride`) on a driver whose
destination is `None` raises nothing: it completes normally and mutates
the driver, assigning `location = None`. -/
theorem C5_counterexample :
    Driver.end_drive (mkDriver "d1" ⟨0, 4⟩ 10) =
      { id := "d1", location := none, speed := 10, is_idle := true, _destination := none } ∧
    ¬ Driver.end_drive (mkDriver "d1" ⟨0, 4⟩ 10) = mkDriver "d1" ⟨0, 4⟩ 10 ∧
    Driver.end_ride (mkDriver "d1" ⟨0, 4⟩ 10) =
      { id := "d1", location := none, speed := 10, is_idle := true, _destination := none } := by
  refine ⟨rfl, ?_, rfl⟩
  intro h
  have := congrArg Driver.location h
  cases this

/-- C5 amended: calling `end_drive` or `end_ride` on a driver whose
pending destination is `None` does not raise; it silently completes,
setting the driver's `location` to `None` (the absent destination),
keeping the destination `None` and setting `is_idle` to `true` — a silent
mutation instead of a defined fault. -/
theorem C5_silent_mutation (d : Driver) (h : d._destination = none) :
    d.end_drive = { d with location := none, _destination := none, is_idle := true } ∧
    d.end_ride = { d with location := none, _destination := none, is_idle := true } := by
  simp [Driver.end_drive, Driver.end_ride, h]

theorem C5_witness :
    Driver.end_drive (mkDriver "d1" ⟨0, 4⟩ 10) =
      { mkDriver "d1" ⟨0, 4⟩ 10 with location := none, _destination := none, is_idle := true } ∧
    Driver.end_ride (mkDriver "d1" ⟨0, 4⟩ 10) =
      { mkDriver "d1" ⟨0, 4⟩ 10 with location := none, _destination := none, is_idle := true } :=
  C5_silent_mutation (mkDriver "d1" ⟨0, 4⟩ 10) rfl

/-! ## C4: a `Pickup` for a rider that is no longer waiting -/

/-- C4: executing a `Pickup` whose rider is not `WAITING` does not fail:
the driver's drive is ended (and a driver-pickup activity logged at the
arrival location), the rider store — hence the rider's status — is left
unchanged, and the single follow-up event is a `DriverRequest` for the
same driver carrying the `Pickup`'s own timestamp. -/
theorem C4_pickup_nonwaiting (t : Int) (rid did : String) (w : World) (r : Rider) (d : Driver)
    (hr : findRider w.riders rid = some r) (hd : findDriver w.drivers did = some d)
    (hs : ¬ r.status = WAITING) :
    Pickup_do t rid did w =
      .ok ({ w with drivers := updateDriver w.drivers d.end_drive,
                    monitor := w.monitor.notify t DRIVER PICKUP d.end_drive.id
                        d.end_drive.location },
           [Ev.driverRequest t did]) := by
  simp [Pickup_do, hr, hd, hs]

def wC4 : World :=
  ⟨[{ mkRider "r1" ⟨0, 0⟩ ⟨3, 4⟩ 4 with status := CANCELLED }],
   [{ mkDriver "d1" ⟨0, 4⟩ 10 with _destination := some ⟨0, 0⟩ }],
   ⟨["d1"], []⟩, ⟨[], []⟩⟩

theorem C4_witness :
    Pickup_do 5 "r1" "d1" wC4 =
      .ok ({ wC4 with
              drivers := updateDriver wC4.drivers
                ({ mkDriver "d1" ⟨0, 4⟩ 10 with _destination := some ⟨0, 0⟩ } : Driver).end_drive,
              monitor := wC4.monitor.notify 5 DRIVER PICKUP
                ({ mkDriver "d1" ⟨0, 4⟩ 10 with _destination := some ⟨0, 0⟩ } : Driver).end_drive.id
                ({ mkDriver "d1" ⟨0, 4⟩ 10 with
                    _destination := some ⟨0, 0⟩ } : Driver).end_drive.location },
           [Ev.driverRequest 5 "d1"]) :=
  C4_pickup_nonwaiting 5 "r1" "d1" wC4
    { mkRider "r1" ⟨0, 0⟩ ⟨3, 4⟩ 4 with status := CANCELLED }
    { mkDriver "d1" ⟨0, 4⟩ 10 with _destination := some ⟨0, 0⟩ }
    (by decide) (by decide) (by decide)

/-! ## C7: a `Cancellation` for an already satisfied rider -/

/-- C7: executing a `Cancellation` for a rider whose status is
`SATISFIED` is a complete no-op: it returns no follow-up events and the
whole world — the rider's status, every monitor log, the dispatcher's
registered drivers and waitlist — is unchanged. -/
theorem C7_cancellation_satisfied (t : Int) (rid : String) (w : World) (r : Rider)
    (hr : findRider w.riders rid = some r) (hs : r.status = SATISFIED) :
    Cancellation_do t rid w = .ok (w, []) := by
  simp [Cancellation_do, hr, hs]

def wC7 : World :=
  ⟨[{ mkRider "r1" ⟨0, 0⟩ ⟨3, 4⟩ 4 with status := SATISFIED }],
   [mkDriver "d1" ⟨0, 4⟩ 10], ⟨["d1"], ["r9"]⟩,
   ⟨[("r1", [⟨"request", 2, "r1", some ⟨0, 0⟩⟩])], []⟩⟩

theorem C7_witness : Cancellation_do 6 "r1" wC7 = .ok (wC7, []) :=
  C7_cancellation_satisfied 6 "r1" wC7
    { mkRider "r1" ⟨0, 0⟩ ⟨3, 4⟩ 4 with status := SATISFIED } (by decide) (by decide)

/-! ## C10: a second `Cancellation` for an already cancelled rider -/

/-- C10: executing a `Cancellation` for a rider whose status is already
`CANCELLED` is not a no-op: it appends another `Cancel` activity to that
rider's monitor log, writes status `CANCELLED` to the rider again,
invokes the dispatcher's waitlist removal (`cancel_ride`), and returns no
follow-up events. -/
theorem C10_double_cancellation (t : Int) (rid : String) (w : World) (r : Rider)
    (hr : findRider w.riders rid = some r) (hs : r.status = CANCELLED) :
    Cancellation_do t rid w =
      .ok (cancel_ride
            { w with
                monitor := w.monitor.notify t RIDER CANCEL r.id (some r.origin),
                riders := updateRider w.riders { r with status := CANCELLED } } rid, []) ∧
    ∀ w' evs, Cancellation_do t rid w = .ok (w', evs) →
      getLog w'.monitor.rider_logs rid =
        getLog w.monitor.rider_logs rid ++ [⟨CANCEL, t, rid, some r.origin⟩] := by
  have hrid : r.id = rid := findRider_id hr
  have hws : ¬ r.status = SATISFIED := by
    rw [hs]
    decide
  have heq : Cancellation_do t rid w =
      .ok (cancel_ride
            { w with
                monitor := w.monitor.notify t RIDER CANCEL r.id (some r.origin),
                riders := updateRider w.riders { r with status := CANCELLED } } rid, []) := by
    simp [Cancellation_do, hr, hws]
  refine ⟨heq, ?_⟩
  intro w' evs h
  rw [heq] at h
  cases h
  simp [cancel_ride]
  split <;>
    simp [Monitor.notify, RIDER, hrid, logAppend_getLog]

def wC10 : World :=
  ⟨[{ mkRider "r1" ⟨0, 0⟩ ⟨3, 4⟩ 4 with status := CANCELLED }],
   [], ⟨[], ["r1"]⟩,
   ⟨[("r1", [⟨"request", 2, "r1", some ⟨0, 0⟩⟩, ⟨"cancel", 6, "r1", some ⟨0, 0⟩⟩])], []⟩⟩

theorem C10_witness :
    Cancellation_do 8 "r1" wC10 =
      .ok (cancel_ride
            { wC10 with
                monitor := wC10.monitor.notify 8 RIDER CANCEL
                  ({ mkRider "r1" ⟨0, 0⟩ ⟨3, 4⟩ 4 with status := CANCELLED } : Rider).id
                  (some ({ mkRider "r1" ⟨0, 0⟩ ⟨3, 4⟩ 4 with status := CANCELLED } : Rider).origin),
                riders := updateRider wC10.riders
                  { ({ mkRider "r1" ⟨0, 0⟩ ⟨3, 4⟩ 4 with status := CANCELLED } : Rider) with
                      status := CANCELLED } } "r1", []) :=
  (C10_double_cancellation 8 "r1" wC10
    { mkRider "r1" ⟨0, 0⟩ ⟨3, 4⟩ 4 with status := CANCELLED } (by decide) (by decide)).1

/-! ## C6: `request_driver` waitlist and frame behaviour -/

theorem rdLoop_no_idle (o : Location) :
    ∀ (ds : List Driver) (mt : Int) (cur : Option String),
      (∀ d ∈ ds, d.is_idle = false) → rdLoop o ds mt cur = .ok (mt, cur) := by
  intro ds
  induction ds with
  | nil => intro mt cur _; rfl
  | cons d rest ih =>
      intro mt cur h
      have hd : d.is_idle = false := h d (by simp)
      rw [rdLoop, if_neg (by simp [hd])]
      exact ih mt cur (fun x hx => h x (by simp [hx]))

/-- C6: `request_driver` appends the rider to the waitlist exactly when
no driver has ever registered (returning `none`); when drivers are
registered but none of the registered ones is idle it returns `none` and
the entire world — in particular the waitlist — is untouched; and
whenever the call succeeds, the rider store and the driver store are
unchanged (no driver or rider field is mutated). -/
theorem C6_request_driver (w : World) (r : Rider) :
    (w.dispatcher._drivers = [] →
      request_driver w r =
        .ok ({ w with dispatcher :=
                { w.dispatcher with _riders := w.dispatcher._riders ++ [r.id] } }, none)) ∧
    (¬ w.dispatcher._drivers = [] →
      (∀ d ∈ registeredDrivers w, d.is_idle = false) →
      request_driver w r = .ok (w, none)) ∧
    (∀ w' res, request_driver w r = .ok (w', res) →
      w'.riders = w.riders ∧ w'.drivers = w.drivers ∧
      (¬ w.dispatcher._drivers = [] → w' = w)) := by
  refine ⟨?_, ?_, ?_⟩
  · intro h
    simp [request_driver, h]
  · intro hne hni
    have hlen : ¬ w.dispatcher._drivers.length = 0 := by
      simpa [List.length_eq_zero] using hne
    rw [request_driver, if_neg hlen, rdLoop_no_idle r.origin _ _ _ hni]
    rfl
  · intro w' res h
    by_cases hlen : w.dispatcher._drivers.length = 0
    · rw [request_driver, if_pos hlen] at h
      cases h
      refine ⟨rfl, rfl, ?_⟩
      intro hne
      exact absurd (List.length_eq_zero.mp hlen) hne
    · rw [request_driver, if_neg hlen] at h
      cases hp : rdLoop r.origin (registeredDrivers w) (-1) none with
      | error e => rw [hp] at h; cases h
      | ok p =>
          rw [hp] at h
          cases h
          exact ⟨rfl, rfl, fun _ => rfl⟩

def wC6 : World := ⟨[], [], ⟨[], []⟩, ⟨[], []⟩⟩

theorem C6_witness :
    request_driver wC6 (mkRider "r1" ⟨0, 0⟩ ⟨3, 4⟩ 4) =
      .ok ({ wC6 with dispatcher :=
              { wC6.dispatcher with _riders := wC6.dispatcher._riders ++ ["r1"] } }, none) :=
  (C6_request_driver wC6 (mkRider "r1" ⟨0, 0⟩ ⟨3, 4⟩ 4)).1 rfl

/-! ## C9: `start_drive` only sets the destination -/

/-- C9: `start_drive(location)` sets only the pending destination and
returns the travel time to it; `id`, `location`, `speed` and `is_idle`
are untouched (in particular a previously idle driver is still idle), and
a driver that has started a drive is still selected by `request_driver`
when it is the registered driver. -/
theorem C9_start_drive_frame (d : Driver) (loc : Location) :
    (d.start_drive loc).1 = { d with _destination := some loc } ∧
    (d.start_drive loc).2 = d.get_travel_time loc ∧
    (d.start_drive loc).1.is_idle = d.is_idle ∧
    (∀ (w : World) (r : Rider) (l : Location),
      d.is_idle = true → d.location = some l → 0 < d.speed →
      registeredDrivers w = [(d.start_drive loc).1] →
      request_driver w r = .ok (w, some d.id)) := by
  refine ⟨rfl, ?_, rfl, ?_⟩
  · simp [Driver.start_drive, Driver.get_travel_time]
  · intro w r l hidle hloc hspeed hreg
    have hlen : ¬ w.dispatcher._drivers.length = 0 := by
      intro h
      rw [List.length_eq_zero] at h
      have : registeredDrivers w = [] := by simp [registeredDrivers, h]
      rw [hreg] at this
      cases this
    rw [request_driver, if_neg hlen, hreg]
    rw [rdLoop, if_pos (by simpa [Driver.start_drive] using hidle), if_pos rfl]
    have hgtt : (d.start_drive loc).1.get_travel_time r.origin =
        .ok (manhattan_distance l r.origin / d.speed) := by
      simp [Driver.start_drive, Driver.get_travel_time, hloc, Nat.pos_iff_ne_zero.mp hspeed]
    rw [hgtt]
    rfl

def dC9 : Driver := mkDriver "d1" ⟨0, 4⟩ 10

def wC9 : World :=
  ⟨[], [(dC9.start_drive ⟨0, 0⟩).1], ⟨["d1"], []⟩, ⟨[], []⟩⟩

theorem C9_witness :
    request_driver wC9 (mkRider "r2" ⟨5, 5⟩ ⟨6, 6⟩ 3) = .ok (wC9, some "d1") :=
  (C9_start_drive_frame dC9 ⟨0, 0⟩).2.2.2 wC9 (mkRider "r2" ⟨5, 5⟩ ⟨6, 6⟩ 3) ⟨0, 4⟩
    rfl rfl (by decide) (by decide)

/-! ## C3: the greedy nearest-idle-driver policy -/

/-- The travel time `floor(manhattan_distance / speed)` as a pure value
(`0` in the missing-location case, which the hypotheses of the theorems
below rule out). -/
def ttN (d : Driver) (o : Location) : Nat :=
  match d.location with
  | some l => manhattan_distance l o / d.speed
  | none => 0

theorem get_travel_time_ok {d : Driver} (o : Location)
    (h1 : d.location.isSome) (h2 : 0 < d.speed) :
    d.get_travel_time o = .ok (ttN d o) := by
  cases hl : d.location with
  | none => rw [hl] at h1; cases h1
  | some l => simp [Driver.get_travel_time, ttN, hl, Nat.pos_iff_ne_zero.mp h2]

theorem rdLoop_cons_idle {d : Driver} (o : Location) (rest : List Driver) (mt : Int)
    (cur : Option String) (hdi : d.is_idle = true) (hloc : d.location.isSome)
    (hsp : 0 < d.speed) :
    rdLoop o (d :: rest) mt cur =
      if mt = -1 then rdLoop o rest (ttN d o : Int) (some d.id)
      else if mt > (ttN d o : Int) then rdLoop o rest (ttN d o : Int) (some d.id)
      else rdLoop o rest mt cur := by
  rw [rdLoop, if_pos hdi]
  by_cases h : mt = -1
  · rw [if_pos h, if_pos h, get_travel_time_ok o hloc hsp]
    rfl
  · rw [if_neg h, if_neg h, get_travel_time_ok o hloc hsp]
    rfl

theorem rdLoop_cons_not_idle {d : Driver} (o : Location) (rest : List Driver) (mt : Int)
    (cur : Option String) (hdi : ¬ d.is_idle = true) :
    rdLoop o (d :: rest) mt cur = rdLoop o rest mt cur := by
  rw [rdLoop, if_neg hdi]

/-- If the running minimum `m` is already a lower bound on the travel
times of all idle drivers still to be scanned, the scan changes nothing. -/
theorem rdLoop_no_better (o : Location) :
    ∀ (ds : List Driver) (m : Nat) (cur : Option String),
      (∀ d ∈ ds, d.is_idle = true → d.location.isSome ∧ 0 < d.speed) →
      (∀ d ∈ ds, d.is_idle = true → m ≤ ttN d o) →
      rdLoop o ds (m : Int) cur = .ok ((m : Int), cur) := by
  intro ds
  induction ds with
  | nil => intro m cur _ _; rfl
  | cons d rest ih =>
      intro m cur hok hge
      have hok' : ∀ x ∈ rest, x.is_idle = true → x.location.isSome ∧ 0 < x.speed :=
        fun x hx => hok x (List.mem_cons_of_mem _ hx)
      have hge' : ∀ x ∈ rest, x.is_idle = true → m ≤ ttN x o :=
        fun x hx => hge x (List.mem_cons_of_mem _ hx)
      by_cases hdi : d.is_idle = true
      · obtain ⟨hloc, hsp⟩ := hok d (List.mem_cons_self _ _) hdi
        have hd := hge d (List.mem_cons_self _ _) hdi
        rw [rdLoop_cons_idle o rest _ cur hdi hloc hsp,
          if_neg (show ¬ ((m : Int) = -1) by omega),
          if_neg (show ¬ ((m : Int) > (ttN d o : Int)) by omega)]
        exact ih m cur hok' hge'
      · rw [rdLoop_cons_not_idle o rest _ cur hdi]
        exact ih m cur hok' hge'

/-- If some idle driver still to be scanned beats the running minimum
`m`, the scan returns the first idle driver achieving the minimal travel
time among the remaining idle drivers. -/
theorem rdLoop_better (o : Location) :
    ∀ (ds : List Driver) (m : Nat) (cur : Option String),
      (∀ d ∈ ds, d.is_idle = true → d.location.isSome ∧ 0 < d.speed) →
      (∃ x ∈ ds, x.is_idle = true ∧ ttN x o < m) →
      ∃ l₁ dm l₂, ds = l₁ ++ dm :: l₂ ∧ dm.is_idle = true ∧ ttN dm o < m ∧
        rdLoop o ds (m : Int) cur = .ok ((ttN dm o : Int), some dm.id) ∧
        (∀ x ∈ ds, x.is_idle = true → ttN dm o ≤ ttN x o) ∧
        (∀ x ∈ l₁, x.is_idle = true → ttN dm o < ttN x o) := by
  intro ds
  induction ds with
  | nil =>
      rintro m cur _ ⟨x, hx, _⟩
      cases hx
  | cons d rest ih =>
      rintro m cur hok ⟨x, hx, hxi, hxlt⟩
      have hok' : ∀ y ∈ rest, y.is_idle = true → y.location.isSome ∧ 0 < y.speed :=
        fun y hy => hok y (List.mem_cons_of_mem _ hy)
      by_cases hdi : d.is_idle = true
      · obtain ⟨hloc, hsp⟩ := hok d (List.mem_cons_self _ _) hdi
        have hstep := rdLoop_cons_idle o rest (m : Int) cur hdi hloc hsp
        rw [if_neg (show ¬ ((m : Int) = -1) by omega)] at hstep
        by_cases hlt : ttN d o < m
        · rw [if_pos (show (m : Int) > (ttN d o : Int) by omega)] at hstep
          by_cases hbet : ∃ y ∈ rest, y.is_idle = true ∧ ttN y o < ttN d o
          · obtain ⟨l₁', dm, l₂', hsplit, hdmi, hdml, hres, hmin, hstrict⟩ :=
              ih (ttN d o) (some d.id) hok' hbet
            refine ⟨d :: l₁', dm, l₂', by rw [hsplit, List.cons_append], hdmi, by omega,
              hstep.trans hres, ?_, ?_⟩
            · intro y hy hyi
              rcases List.mem_cons.mp hy with rfl | hyr
              · omega
              · exact hmin y hyr hyi
            · intro y hy hyi
              rcases List.mem_cons.mp hy with rfl | hyr
              · omega
              · exact hstrict y hyr hyi
          · push_neg at hbet
            have hge' : ∀ y ∈ rest, y.is_idle = true → ttN d o ≤ ttN y o := by
              intro y hy hyi
              exact hbet y hy hyi
            refine ⟨[], d, rest, rfl, hdi, hlt,
              hstep.trans (rdLoop_no_better o rest (ttN d o) (some d.id) hok' hge'), ?_, ?_⟩
            · intro y hy hyi
              rcases List.mem_cons.mp hy with rfl | hyr
              · exact Nat.le_refl _
              · exact hge' y hyr hyi
            · intro y hy _
              cases hy
        · rw [if_neg (show ¬ ((m : Int) > (ttN d o : Int)) by omega)] at hstep
          have hxr : x ∈ rest := by
            rcases List.mem_cons.mp hx with rfl | hxr
            · exact absurd hxlt hlt
            · exact hxr
          obtain ⟨l₁', dm, l₂', hsplit, hdmi, hdml, hres, hmin, hstrict⟩ :=
            ih m cur hok' ⟨x, hxr, hxi, hxlt⟩
          refine ⟨d :: l₁', dm, l₂', by rw [hsplit, List.cons_append], hdmi, hdml,
            hstep.trans hres, ?_, ?_⟩
          · intro y hy hyi
            rcases List.mem_cons.mp hy with rfl | hyr
            · omega
            · exact hmin y hyr hyi
          · intro y hy hyi
            rcases List.mem_cons.mp hy with rfl | hyr
            · omega
            · exact hstrict y hyr hyi
      · have hxr : x ∈ rest := by
          rcases List.mem_cons.mp hx with rfl | hxr
          · exact absurd hxi hdi
          · exact hxr
        obtain ⟨l₁', dm, l₂', hsplit, hdmi, hdml, hres, hmin, hstrict⟩ :=
          ih m cur hok' ⟨x, hxr, hxi, hxlt⟩
        refine ⟨d :: l₁', dm, l₂', by rw [hsplit, List.cons_append], hdmi, hdml,
          (rdLoop_cons_not_idle o rest _ cur hdi).trans hres, ?_, ?_⟩
        · intro y hy hyi
          rcases List.mem_cons.mp hy with rfl | hyr
          · exact absurd hyi hdi
          · exact hmin y hyr hyi
        · intro y hy hyi
          rcases List.mem_cons.mp hy with rfl | hyr
          · exact absurd hyi hdi
          · exact hstrict y hyr hyi

/-- The full scan, started with `min_time = -1` and no pick: it returns
the first idle driver achieving the minimal travel time. -/
theorem rdLoop_start (o : Location) :
    ∀ (ds : List Driver),
      (∀ d ∈ ds, d.is_idle = true → d.location.isSome ∧ 0 < d.speed) →
      (∃ x ∈ ds, x.is_idle = true) →
      ∃ l₁ dm l₂, ds = l₁ ++ dm :: l₂ ∧ dm.is_idle = true ∧
        rdLoop o ds (-1) none = .ok ((ttN dm o : Int), some dm.id) ∧
        (∀ x ∈ ds, x.is_idle = true → ttN dm o ≤ ttN x o) ∧
        (∀ x ∈ l₁, x.is_idle = true → ttN dm o < ttN x o) := by
  intro ds
  induction ds with
  | nil =>
      rintro _ ⟨x, hx, _⟩
      cases hx
  | cons d rest ih =>
      rintro hok ⟨x, hx, hxi⟩
      have hok' : ∀ y ∈ rest, y.is_idle = true → y.location.isSome ∧ 0 < y.speed :=
        fun y hy => hok y (List.mem_cons_of_mem _ hy)
      by_cases hdi : d.is_idle = true
      · obtain ⟨hloc, hsp⟩ := hok d (List.mem_cons_self _ _) hdi
        have hstep := rdLoop_cons_idle o rest (-1) none hdi hloc hsp
        rw [if_pos rfl] at hstep
        by_cases hbet : ∃ y ∈ rest, y.is_idle = true ∧ ttN y o < ttN d o
        · obtain ⟨l₁', dm, l₂', hsplit, hdmi, hdml, hres, hmin, hstrict⟩ :=
            rdLoop_better o rest (ttN d o) (some d.id) hok' hbet
          refine ⟨d :: l₁', dm, l₂', by rw [hsplit, List.cons_append], hdmi,
            hstep.trans hres, ?_, ?_⟩
          · intro y hy hyi
            rcases List.mem_cons.mp hy with rfl | hyr
            · omega
            · exact hmin y hyr hyi
          · intro y hy hyi
            rcases List.mem_cons.mp hy with rfl | hyr
            · omega
            · exact hstrict y hyr hyi
        · push_neg at hbet
          have hge' : ∀ y ∈ rest, y.is_idle = true → ttN d o ≤ ttN y o := by
            intro y hy hyi
            exact hbet y hy hyi
          refine ⟨[], d, rest, rfl, hdi,
            hstep.trans (rdLoop_no_better o rest (ttN d o) (some d.id) hok' hge'), ?_, ?_⟩
          · intro y hy hyi
            rcases List.mem_cons.mp hy with rfl | hyr
            · exact Nat.le_refl _
            · exact hge' y hyr hyi
          · intro y hy _
            cases hy
      · have hxr : x ∈ rest := by
          rcases List.mem_cons.mp hx with rfl | hxr
          · exact absurd hxi hdi
          · exact hxr
        obtain ⟨l₁', dm, l₂', hsplit, hdmi, hres, hmin, hstrict⟩ := ih hok' ⟨x, hxr, hxi⟩
        refine ⟨d :: l₁', dm, l₂', by rw [hsplit, List.cons_append], hdmi,
          (rdLoop_cons_not_idle o rest _ none hdi).trans hres, ?_, ?_⟩
        · intro y hy hyi
          rcases List.mem_cons.mp hy with rfl | hyr
          · exact absurd hyi hdi
          · exact hmin y hyr hyi
        · intro y hy hyi
          rcases List.mem_cons.mp hy with rfl | hyr
          · exact absurd hyi hdi
          · exact hstrict y hyr hyi

/-- C3: when the registered-driver sequence is non-empty and contains an
idle driver (all idle registered drivers having a location and a positive
speed, as every driver built by the program does), `request_driver`
returns the idle registered driver minimizing the travel time
`ttN = floor(manhattan_distance(driver.location, rider.origin) / speed)`,
and on exact ties the earliest-registered one: every idle driver
registered before the returned one has strictly larger travel time. -/
theorem C3_greedy_nearest (w : World) (r : Rider)
    (hok : ∀ d ∈ registeredDrivers w, d.is_idle = true → d.location.isSome ∧ 0 < d.speed)
    (hidle : ∃ d ∈ registeredDrivers w, d.is_idle = true) :
    ∃ l₁ dm l₂, registeredDrivers w = l₁ ++ dm :: l₂ ∧ dm.is_idle = true ∧
      request_driver w r = .ok (w, some dm.id) ∧
      (∀ x ∈ registeredDrivers w, x.is_idle = true → ttN dm r.origin ≤ ttN x r.origin) ∧
      (∀ x ∈ l₁, x.is_idle = true → ttN dm r.origin < ttN x r.origin) := by
  obtain ⟨l₁, dm, l₂, hsplit, hdmi, hres, hmin, hstrict⟩ := rdLoop_start r.origin _ hok hidle
  have hlen : ¬ w.dispatcher._drivers.length = 0 := by
    intro h
    rw [List.length_eq_zero] at h
    obtain ⟨x, hx, _⟩ := hidle
    rw [show registeredDrivers w = [] by simp [registeredDrivers, h]] at hx
    cases hx
  refine ⟨l₁, dm, l₂, hsplit, hdmi, ?_, hmin, hstrict⟩
  rw [request_driver, if_neg hlen, hres]
  rfl

/-- Three concrete drivers: a busy one, then an idle one with travel time
`10 / 5 = 2`, then an idle one with travel time `3 / 2 = 1`. -/
def wC3 : World :=
  ⟨[], [⟨"dx", some ⟨100, 100⟩, 1, false, none⟩,
        ⟨"da", some ⟨10, 0⟩, 5, true, none⟩,
        ⟨"db", some ⟨0, 3⟩, 2, true, none⟩],
   ⟨["dx", "da", "db"], []⟩, ⟨[], []⟩⟩

theorem C3_witness :
    ∃ l₁ dm l₂,
      registeredDrivers wC3 = l₁ ++ dm :: l₂ ∧ dm.is_idle = true ∧
      request_driver wC3 (mkRider "r1" ⟨0, 0⟩ ⟨3, 4⟩ 4) = .ok (wC3, some dm.id) ∧
      (∀ x ∈ registeredDrivers wC3, x.is_idle = true →
        ttN dm (⟨0, 0⟩ : Location) ≤ ttN x (⟨0, 0⟩ : Location)) ∧
      (∀ x ∈ l₁, x.is_idle = true →
        ttN dm (⟨0, 0⟩ : Location) < ttN x (⟨0, 0⟩ : Location)) :=
  C3_greedy_nearest wC3 (mkRider "r1" ⟨0, 0⟩ ⟨3, 4⟩ 4) (by decide)
    ⟨⟨"da", some ⟨10, 0⟩, 5, true, none⟩, by decide⟩

/-! ## C8: division by zero in `Monitor.report` -/

theorem waitStats_count (logs : List (String × List Activity)) :
    ∀ p : Int × Nat,
      (logs.foldl (fun (p : Int × Nat) e =>
          match e.2 with
          | a0 :: a1 :: _ => (p.1 + (a1.time - a0.time), p.2 + 1)
          | _ => p) p).2 =
        p.2 + logs.countP (fun e => decide (1 < e.2.length)) := by
  induction logs with
  | nil => intro p; simp
  | cons e rest ih =>
      intro p
      rw [List.foldl_cons, List.countP_cons]
      match he : e.2 with
      | [] => simp [he, ih]
      | [a] => simp [he, ih]
      | a :: b :: t =>
          simp [he, ih]
          omega

theorem average_wait_time_zde (m : Monitor) (h : ∀ e ∈ m.rider_logs, e.2.length < 2) :
    m.average_wait_time = .error "ZeroDivisionError" := by
  have hc : (waitStats m.rider_logs).2 = 0 := by
    rw [waitStats, waitStats_count]
    simp only [Nat.zero_add]
    rw [List.countP_eq_zero]
    intro e he
    have := h e he
    simp only [decide_eq_true_eq]
    omega
  unfold Monitor.average_wait_time
  simp [hc]

theorem average_wait_time_count_pos (m : Monitor) (h : ∃ e ∈ m.rider_logs, 2 ≤ e.2.length) :
    ∃ q, m.average_wait_time = .ok q := by
  have hc : ¬ (waitStats m.rider_logs).2 = 0 := by
    rw [waitStats, waitStats_count]
    obtain ⟨e, he, hlen⟩ := h
    have : 0 < List.countP (fun e => decide (1 < e.2.length)) m.rider_logs := by
      rw [List.countP_pos_iff]
      exact ⟨e, he, by simpa using hlen⟩
    omega
  unfold Monitor.average_wait_time
  refine ⟨((waitStats m.rider_logs).1 : Rat) / ((waitStats m.rider_logs).2 : Rat), ?_⟩
  simp [hc]

theorem average_wait_time_ok_or_zde (m : Monitor) :
    (∃ q, m.average_wait_time = .ok q) ∨ m.average_wait_time = .error "ZeroDivisionError" := by
  unfold Monitor.average_wait_time
  by_cases h : (waitStats m.rider_logs).2 = 0
  · right
    simp [h]
  · left
    refine ⟨((waitStats m.rider_logs).1 : Rat) / ((waitStats m.rider_logs).2 : Rat), ?_⟩
    simp [h]

theorem driverTripleSum_ok : ∀ (acts : List Activity),
    (∀ a ∈ acts, a.location.isSome) → ∃ n, driverTripleSum acts = .ok n := by
  intro acts
  induction acts with
  | nil => intro _; exact ⟨0, rfl⟩
  | cons a tl ih =>
      intro h
      match tl, ih with
      | [], _ => exact ⟨0, rfl⟩
      | [b], _ => exact ⟨0, rfl⟩
      | b :: c :: rest, ih =>
          obtain ⟨n, hn⟩ := ih (fun x hx => h x (List.mem_cons_of_mem _ hx))
          obtain ⟨la, hla⟩ := Option.isSome_iff_exists.mp (h a (List.mem_cons_self _ _))
          obtain ⟨lb, hlb⟩ := Option.isSome_iff_exists.mp
            (h b (List.mem_cons_of_mem _ (List.mem_cons_self _ _)))
          obtain ⟨lc, hlc⟩ := Option.isSome_iff_exists.mp
            (h c (List.mem_cons_of_mem _ (List.mem_cons_of_mem _ (List.mem_cons_self _ _))))
          by_cases hreq : a.description = REQUEST
          · by_cases hdrop : c.description = DROPOFF
            · refine ⟨manhattan_distance la lb + manhattan_distance lb lc + n, ?_⟩
              simp [driverTripleSum, hreq, hdrop, hla, hlb, hlc, mdistE, hn, Except.bind]
              rfl
            · refine ⟨manhattan_distance la lb + 0 + n, ?_⟩
              simp [driverTripleSum, hreq, hdrop, hla, hlb, mdistE, hn, Except.bind]
              rfl
          · exact ⟨n, by simp [driverTripleSum, hreq, hn]⟩

theorem ridePairSum_ok : ∀ (acts : List Activity),
    (∀ a ∈ acts, a.location.isSome) → ∃ n, ridePairSum acts = .ok n := by
  intro acts
  induction acts with
  | nil => intro _; exact ⟨0, rfl⟩
  | cons a tl ih =>
      intro h
      match tl, ih with
      | [], _ => exact ⟨0, rfl⟩
      | b :: rest, ih =>
          obtain ⟨n, hn⟩ := ih (fun x hx => h x (List.mem_cons_of_mem _ hx))
          obtain ⟨la, hla⟩ := Option.isSome_iff_exists.mp (h a (List.mem_cons_self _ _))
          obtain ⟨lb, hlb⟩ := Option.isSome_iff_exists.mp
            (h b (List.mem_cons_of_mem _ (List.mem_cons_self _ _)))
          by_cases hpd : a.description = PICKUP ∧ b.description = DROPOFF
          · refine ⟨manhattan_distance la lb + n, ?_⟩
            simp [ridePairSum, hpd, hla, hlb, mdistE, hn, Except.bind]
            rfl
          · exact ⟨n, by simp [ridePairSum, hpd, hn]⟩

theorem totalSum_ok : ∀ (logs : List (String × List Activity)) (acc : Nat),
    (∀ e ∈ logs, ∀ a ∈ e.2, a.location.isSome) →
    ∃ n, logs.foldlM (fun acc e => do
        let v ← driverTripleSum e.2
        pure (acc + v)) acc = Except.ok n := by
  intro logs
  induction logs with
  | nil => intro acc _; exact ⟨acc, rfl⟩
  | cons e rest ih =>
      intro acc h
      obtain ⟨v, hv⟩ := driverTripleSum_ok e.2 (h e (List.mem_cons_self _ _))
      obtain ⟨n, hn⟩ := ih (acc + v) (fun x hx => h x (List.mem_cons_of_mem _ hx))
      refine ⟨n, ?_⟩
      simp only [List.foldlM_cons]
      rw [hv]
      exact hn

theorem rideSum_ok : ∀ (logs : List (String × List Activity)) (acc : Nat),
    (∀ e ∈ logs, ∀ a ∈ e.2, a.location.isSome) →
    ∃ n, logs.foldlM (fun acc e => do
        let v ← ridePairSum e.2
        pure (acc + v)) acc = Except.ok n := by
  intro logs
  induction logs with
  | nil => intro acc _; exact ⟨acc, rfl⟩
  | cons e rest ih =>
      intro acc h
      obtain ⟨v, hv⟩ := ridePairSum_ok e.2 (h e (List.mem_cons_self _ _))
      obtain ⟨n, hn⟩ := ih (acc + v) (fun x hx => h x (List.mem_cons_of_mem _ hx))
      refine ⟨n, ?_⟩
      simp only [List.foldlM_cons]
      rw [hv]
      exact hn

theorem average_total_distance_empty (m : Monitor) (hd : m.driver_logs = []) :
    m.average_total_distance = .error "ZeroDivisionError" := by
  unfold Monitor.average_total_distance
  rw [hd]
  rfl

theorem average_total_distance_ok (m : Monitor) (hne : ¬ m.driver_logs = [])
    (hloc : ∀ e ∈ m.driver_logs, ∀ a ∈ e.2, a.location.isSome) :
    ∃ q, m.average_total_distance = .ok q := by
  obtain ⟨n, hn⟩ := totalSum_ok m.driver_logs 0 hloc
  have hn' : totalSum m.driver_logs = .ok n := hn
  have hlen : ¬ m.driver_logs.length = 0 := by
    simpa [List.length_eq_zero] using hne
  refine ⟨(n : Rat) / (m.driver_logs.length : Rat), ?_⟩
  unfold Monitor.average_total_distance
  rw [hn']
  simp [hlen, Except.bind]

theorem average_ride_distance_ok (m : Monitor) (hne : ¬ m.driver_logs = [])
    (hloc : ∀ e ∈ m.driver_logs, ∀ a ∈ e.2, a.location.isSome) :
    ∃ q, m.average_ride_distance = .ok q := by
  obtain ⟨n, hn⟩ := rideSum_ok m.driver_logs 0 hloc
  have hn' : rideSum m.driver_logs = .ok n := hn
  have hlen : ¬ m.driver_logs.length = 0 := by
    simpa [List.length_eq_zero] using hne
  refine ⟨(n : Rat) / (m.driver_logs.length : Rat), ?_⟩
  unfold Monitor.average_ride_distance
  rw [hn']
  simp [hlen, Except.bind]

/-- A monitor state with a resolved rider and a driver log containing a
pickup activity whose location is `None` — exactly what `Pickup.do` logs
after `end_drive` of a driver with no pending destination. -/
def mC8 : Monitor :=
  ⟨[("r1", [⟨"request", 0, "r1", some ⟨0, 0⟩⟩, ⟨"pickup", 1, "r1", some ⟨0, 0⟩⟩])],
   [("d1", [⟨"request", 0, "d1", some ⟨0, 4⟩⟩, ⟨"pickup", 1, "d1", none⟩,
            ⟨"dropoff", 2, "d1", some ⟨3, 4⟩⟩])]⟩

/-- C8 counterexample: a monitor state in which at least one rider has
two logged activities and at least one driver has a log, yet `report()`
faults (with an attribute error on the missing location, not a division
by zero), so the claim's "returns the three averages without faulting"
branch fails as stated. -/
theorem C8_counterexample :
    (∃ e ∈ mC8.rider_logs, 2 ≤ e.2.length) ∧ ¬ mC8.driver_logs = [] ∧
    mC8.report = .error "AttributeError" := by
  refine ⟨by decide, by decide, ?_⟩
  have h1 : mC8.average_wait_time =
      .ok (((1 : Int) : Rat) / ((1 : Nat) : Rat)) := rfl
  have h2 : mC8.average_total_distance = .error "AttributeError" := rfl
  unfold Monitor.report
  rw [h1, h2]
  rfl

/-- C8 amended: `report()` raises the division-by-zero fault whenever no
rider has at least two logged activities or no driver has any log; when
at least one rider has two or more activities, at least one driver has a
log, and every activity in the driver logs carries a location, it returns
the three averages without faulting. -/
theorem C8_report_division (m : Monitor) :
    ((∀ e ∈ m.rider_logs, e.2.length < 2) ∨ m.driver_logs = [] →
      m.report = .error "ZeroDivisionError") ∧
    ((∃ e ∈ m.rider_logs, 2 ≤ e.2.length) → ¬ m.driver_logs = [] →
      (∀ e ∈ m.driver_logs, ∀ a ∈ e.2, a.location.isSome) →
      ∃ rep, m.report = .ok rep) := by
  constructor
  · intro h
    rcases h with hr | hd
    · have hw := average_wait_time_zde m hr
      unfold Monitor.report
      rw [hw]
      rfl
    · rcases average_wait_time_ok_or_zde m with ⟨q, hq⟩ | hz
      · have ht := average_total_distance_empty m hd
        unfold Monitor.report
        rw [hq, ht]
        rfl
      · unfold Monitor.report
        rw [hz]
        rfl
  · intro hex hne hloc
    obtain ⟨qw, hqw⟩ := average_wait_time_count_pos m hex
    obtain ⟨qt, hqt⟩ := average_total_distance_ok m hne hloc
    obtain ⟨qr, hqr⟩ := average_ride_distance_ok m hne hloc
    refine ⟨⟨qw, qt, qr⟩, ?_⟩
    unfold Monitor.report
    rw [hqw, hqt, hqr]
    rfl

/-- A monitor state on the claim's good path: one resolved rider, one
driver log, all locations present. -/
def mC8w : Monitor :=
  ⟨[("r1", [⟨"request", 0, "r1", some ⟨0, 0⟩⟩, ⟨"pickup", 1, "r1", some ⟨0, 0⟩⟩])],
   [("d1", [⟨"request", 0, "d1", some ⟨0, 4⟩⟩])]⟩

theorem C8_witness : ∃ rep, mC8w.report = .ok rep :=
  (C8_report_division mC8w).2 ⟨("r1", [⟨"request", 0, "r1", some ⟨0, 0⟩⟩,
      ⟨"pickup", 1, "r1", some ⟨0, 0⟩⟩]), by decide⟩ (by decide) (by decide)
